import Mathlib

/-!
Verification development for the `st_aggrid` marshalling layer
(`src/st_aggrid/__init__.py`).

The module renders a pandas DataFrame inside an external grid widget and
reconciles the widget's JSON response back into a typed table.  We embed the
data model shallowly: cell values become an inductive `Value`, pandas dtypes
become `Dtype` (with their numpy `kind` character), rows/records are
association lists, and the pandas/simplejson library calls used by the module
(`pd.to_numeric`, `pd.to_datetime`, `pd.Timedelta`, `astype(str)`,
`DataFrame.applymap`, `DataFrame.apply`, `to_dict(orient="records")`,
`pd.DataFrame(records)`) are modelled as executable Lean functions whose
behaviour matches the library on the value forms occurring here.  Model
restrictions (e.g. the subset of string formats `pd.to_numeric` accepts) are
noted at each definition.
-/

deriving instance DecidableEq for Except

namespace StAggrid

/-! ### Decimal digit rendering and parsing

Python renders numbers and datetime components in base 10.  We implement a
fuel-based structural renderer (so that all definitions reduce in the kernel)
and a fold-based parser, and prove they are mutually inverse.
-/

/-- The character for a single decimal digit. -/
def digitChar (d : Nat) : Char := Char.ofNat (48 + d)

/-- The decimal value of a digit character. -/
def charDigit (c : Char) : Nat := c.toNat - 48

/-- Big-endian decimal digits of `n`, with `fuel` bounding the recursion.
`natDigitsAux fuel 0 = []`. -/
def natDigitsAux : Nat → Nat → List Char
  | 0, _ => []
  | _ + 1, 0 => []
  | fuel + 1, n + 1 => natDigitsAux fuel ((n + 1) / 10) ++ [digitChar ((n + 1) % 10)]

/-- Big-endian decimal digits of `n`, rendering `0` as `"0"`. -/
def natChars (n : Nat) : List Char := if n = 0 then ['0'] else natDigitsAux n n

/-- Base-10 rendering of a natural number as a string. -/
def natStr (n : Nat) : String := ⟨natChars n⟩

/-- Left-pad the decimal rendering of `n` with zeros to width `w`
(as Python `"%04d"`-style formatting does for timestamp components). -/
def padChars (w n : Nat) : List Char :=
  List.replicate (w - (natChars n).length) '0' ++ natChars n

/-- Base-10 rendering of an integer (Python `str(int)`). -/
def intStr (n : Int) : String :=
  if n < 0 then ⟨'-' :: natChars n.natAbs⟩ else ⟨natChars n.natAbs⟩

/-- One step of big-endian decimal accumulation. -/
def digitStep (a : Nat) (c : Char) : Nat := 10 * a + charDigit c

/-- Parse a non-empty all-digit character list as a natural number. -/
def parseDigits (cs : List Char) : Option Nat :=
  if cs ≠ [] ∧ cs.all Char.isDigit then some (cs.foldl digitStep 0) else none

/-! ### Splitting on a separator character (for ISO date/duration parsing) -/

/-- Split a character list on a separator, keeping (possibly empty) groups. -/
def splitOnChar (sep : Char) : List Char → List (List Char)
  | [] => [[]]
  | c :: cs =>
    if c = sep then [] :: splitOnChar sep cs
    else
      match splitOnChar sep cs with
      | [] => [[c]]
      | g :: gs => (c :: g) :: gs

/-! ### Timestamps and timedeltas

`pd.Timestamp.isoformat()` yields `YYYY-MM-DDTHH:MM:SS`;
`pd.Timedelta.isoformat()` yields `PdDThHmMsS`.  We model both value kinds by
their calendar/second components (sub-second precision omitted: no claim
depends on it).
-/

structure Timestamp where
  year : Nat
  month : Nat
  day : Nat
  hour : Nat
  minute : Nat
  second : Nat
deriving DecidableEq, Repr

/-- Characters of the date part `YYYY-MM-DD`. -/
def Timestamp.dateChars (t : Timestamp) : List Char :=
  padChars 4 t.year ++ '-' :: (padChars 2 t.month ++ '-' :: padChars 2 t.day)

/-- Characters of the time part `HH:MM:SS`. -/
def Timestamp.timeChars (t : Timestamp) : List Char :=
  padChars 2 t.hour ++ ':' :: (padChars 2 t.minute ++ ':' :: padChars 2 t.second)

/-- Characters of the full ISO form `YYYY-MM-DDTHH:MM:SS`. -/
def Timestamp.isoChars (t : Timestamp) : List Char :=
  t.dateChars ++ 'T' :: t.timeChars

/-- `Timestamp.isoformat()`: the ISO-8601 rendering of the instant. -/
def Timestamp.isoformat (t : Timestamp) : String := ⟨t.isoChars⟩

structure Timedelta where
  days : Nat
  hours : Nat
  minutes : Nat
  seconds : Nat
deriving DecidableEq, Repr

/-- Characters of the ISO-8601 duration form `PdDThHmMsS`
(as `pd.Timedelta.isoformat()` produces, e.g. `P0DT0H1M0S`). -/
def Timedelta.isoChars (d : Timedelta) : List Char :=
  'P' :: (natChars d.days ++ 'D' :: 'T' ::
    (natChars d.hours ++ 'H' :: (natChars d.minutes ++ 'M' ::
      (natChars d.seconds ++ ['S']))))

/-- `Timedelta.isoformat()`. -/
def Timedelta.isoformat (d : Timedelta) : String := ⟨d.isoChars⟩

/-- Parse three digit runs joined by a separator (`a-b-c` or `a:b:c`). -/
def parse3 (sep : Char) (cs : List Char) : Option (Nat × Nat × Nat) :=
  match splitOnChar sep cs with
  | [a, b, c] =>
    match parseDigits a, parseDigits b, parseDigits c with
    | some x, some y, some z => some (x, y, z)
    | _, _, _ => none
  | _ => none

/-- Parse the ISO timestamp form `YYYY-MM-DDTHH:MM:SS`. -/
def parseTimestampChars (cs : List Char) : Option Timestamp :=
  match splitOnChar 'T' cs with
  | [d, tm] =>
    match parse3 '-' d, parse3 ':' tm with
    | some (y, mo, da), some (h, mi, se) => some ⟨y, mo, da, h, mi, se⟩
    | _, _ => none
  | _ => none

/-- Parse the ISO duration form `PdDThHmMsS` (the format produced by
`Timedelta.isoformat`); this is among the string forms `pd.Timedelta`
accepts for scalar input. -/
def parseTimedeltaChars : List Char → Option Timedelta
  | 'P' :: rest =>
    match splitOnChar 'D' rest with
    | [dd, 'T' :: rest2] =>
      match splitOnChar 'H' rest2 with
      | [hh, rest3] =>
        match splitOnChar 'M' rest3 with
        | [mm, rest4] =>
          match splitOnChar 'S' rest4 with
          | [ss, []] =>
            match parseDigits dd, parseDigits hh, parseDigits mm, parseDigits ss with
            | some d, some h, some m, some s => some ⟨d, h, m, s⟩
            | _, _, _, _ => none
          | _ => none
        | _ => none
      | _ => none
    | _ => none
  | _ => none

/-! ### Cell values

The universe of values that appear as DataFrame cells when `applymap` passes
them to `cast_to_serializable` and when records come back from the widget:
Python/numpy integers, floats (including the IEEE specials `nan`/`inf`, which
we model symbolically — no floating-point arithmetic is performed on them),
`pd.NaT`, strings, `pd.Timestamp`, `pd.Timedelta`, `np.bool_` and `None`.
Bool cells of a pandas bool column surface as `np.bool_`, which is *not* an
instance of `numbers.Number`.
-/

inductive Value where
  | vInt (n : Int)
  | vFloat (q : Rat)
  | vNaN
  | vInf
  | vNegInf
  | vNaT
  | vStr (s : String)
  | vDatetime (t : Timestamp)
  | vTimedelta (d : Timedelta)
  | vBool (b : Bool)
  | vNone
deriving DecidableEq, Repr

/-- `getattr(value, "isoformat", None)`, when present and callable:
`pd.Timestamp`, `pd.Timedelta` and `pd.NaT` expose `isoformat()`
(`pd.NaT.isoformat()` returns `"NaT"`). -/
def Value.isoformatAttr : Value → Option String
  | .vDatetime t => some t.isoformat
  | .vTimedelta d => some d.isoformat
  | .vNaT => some ("NaT")
  | _ => none

/-- `isinstance(value, numbers.Number)`: ints and floats (finite or not) are
`Number`s; `np.bool_`, strings, `None` and datetime-likes are not. -/
def Value.isNumber : Value → Bool
  | .vInt _ | .vFloat _ | .vNaN | .vInf | .vNegInf => true
  | _ => false

/-- `np.isnan(value) or np.isinf(value)` on a `Number` cell. -/
def Value.isNanOrInf : Value → Bool
  | .vNaN | .vInf | .vNegInf => true
  | _ => false

/-- Approximate rendering of a finite float (`str(float)`); exact only for
integral values, which is all any theorem below evaluates. -/
def floatStr (q : Rat) : String :=
  if q.den = 1 then intStr q.num ++ ".0" else intStr q.num ++ "/" ++ natStr q.den

/-- `value.__str__()` for each cell form (`str(5) = "5"`, `str(nan) = "nan"`,
`str(np.bool_(True)) = "True"`, `str(None) = "None"`; the datetime-like
renderings use a space separator as `str(pd.Timestamp)` does). -/
def Value.pyStr : Value → String
  | .vInt n => intStr n
  | .vFloat q => floatStr q
  | .vNaN => "nan"
  | .vInf => "inf"
  | .vNegInf => "-inf"
  | .vNaT => "NaT"
  | .vStr s => s
  | .vDatetime t => ⟨t.dateChars ++ ' ' :: t.timeChars⟩
  | .vTimedelta d => d.isoformat
  | .vBool b => if b then "True" else "False"
  | .vNone => "None"

/-! ### Dtypes and the Type Classifier -/

/-- The numpy dtypes a pandas column can declare, abstracted to the cases the
module distinguishes.  `kind` below is numpy's `dtype.kind` character. -/
inductive Dtype where
  | int64
  | uint64
  | float64
  | object
  | bytes_
  | unicode_
  | datetime64
  | timedelta64
  | bool_
  | complex128
deriving DecidableEq, Repr

/-- numpy `dtype.kind`. -/
def Dtype.kind : Dtype → Char
  | .int64 => 'i'
  | .uint64 => 'u'
  | .float64 => 'f'
  | .object => 'O'
  | .bytes_ => 'S'
  | .unicode_ => 'U'
  | .datetime64 => 'M'
  | .timedelta64 => 'm'
  | .bool_ => 'b'
  | .complex128 => 'c'

/-- One named, typed column of a DataFrame. -/
structure Column where
  name : String
  dtype : Dtype
  cells : List Value
deriving DecidableEq, Repr

/-- A DataFrame: an ordered sequence of named columns. -/
abbrev DataFrame := List Column

/-- Row count, taken from the first column (all columns of a well-formed
frame have equal length). -/
def nrows (df : DataFrame) : Nat :=
  (df.head?.map (fun c => c.cells.length)).getD 0

/-- `DataFrame.empty`: true when the frame has no rows or no columns. -/
def DataFrame.isEmpty (df : DataFrame) : Bool :=
  df.all (fun c => c.cells.isEmpty)

/-- Line 150: `frame_dtypes = dict(zip(dataframe.columns, (t.kind for t in
dataframe.dtypes)))` — the per-column type-tag map. -/
def frame_dtypes (df : DataFrame) : List (String × Char) :=
  df.map (fun c => (c.name, c.dtype.kind))

/-! ### Outbound Encoder (lines 157-173) -/

/-- Lines 157-169: `cast_to_serializable`.  Branches exactly as the source:
a callable `isoformat` wins; then `numbers.Number`s are stringified iff
nan/inf; everything else is stringified. -/
def cast_to_serializable (value : Value) : Value :=
  match value.isoformatAttr with
  | some s => .vStr s
  | none =>
    if value.isNumber then
      if value.isNanOrInf then .vStr value.pyStr
      else value
    else .vStr value.pyStr

/-- Line 171: `json_frame = dataframe.applymap(cast_to_serializable)`. -/
def encodeFrame (df : DataFrame) : DataFrame :=
  df.map (fun c => ⟨c.name, c.dtype, c.cells.map cast_to_serializable⟩)

/-- A scalar that `simplejson.dumps` writes as a JSON string or a (finite)
JSON number — the JSON-safe codomain the spec promises. -/
def jsonSafeScalar : Value → Bool
  | .vStr _ => true
  | .vInt _ => true
  | .vFloat _ => true
  | _ => false

/-- Modelled from the spec (section 4.2), for comparison with the code's
`cast_to_serializable`: 1. a date/time textual-representation capability wins;
2. else numeric nan/inf values go to their string form and finite numerics
pass through; 3. else the string form. -/
def encoder_policy_spec (v : Value) : Value :=
  match v.isoformatAttr with
  | some s => .vStr s
  | none =>
    if v.isNumber then
      if v.isNanOrInf then .vStr v.pyStr else v
    else .vStr v.pyStr

/-! ### Rows and records (lines 172, 235)

`json_frame.to_dict(orient="records")` turns the frame into an ordered list
of `{column name: cell}` records; `pd.DataFrame(rowData)` rebuilds a frame
whose column set is the keys observed in the records (missing keys NaN-fill;
we use `vNone` as the fill value — no theorem exercises ragged records).
-/

/-- One wire record: a row as an association list `column name ↦ cell`. -/
abbrev Record := List (String × Value)

/-- Row `i` of a frame. -/
def rowAt (df : DataFrame) (i : Nat) : Record :=
  df.map (fun c => (c.name, c.cells.getD i .vNone))

/-- `to_dict(orient="records")` of a frame with `n` rows. -/
def to_records (df : DataFrame) (n : Nat) : List Record :=
  (List.range n).map (rowAt df)

/-- The cells of column `nm` reconstructed from a record list. -/
def colFromRecords (records : List Record) (nm : String) : List Value :=
  records.map (fun r => (((r.find? (fun p => p.1 == nm)).map Prod.snd).getD .vNone))

/-- Line 235: `pd.DataFrame(component_value["rowData"])` — the column set is
the keys of the first record (all records of a widget response share keys),
and every reconstructed column carries `object` dtype. -/
def fromRecords (records : List Record) : DataFrame :=
  match records with
  | [] => []
  | r :: _ => r.map (fun p => ⟨p.1, Dtype.object, colFromRecords records p.1⟩)

/-! ### Models of the pandas conversion routines used by the Inbound Decoder -/

/-- The caller's `conversion_errors` policy. -/
inductive ErrPolicy where
  | raise
  | coerce
  | ignore
deriving DecidableEq, Repr

/-- Parse an optionally-signed digit run (`int("...")`-style literal). -/
def parseSignedInt (cs : List Char) : Option Int :=
  match cs with
  | '-' :: rest => (parseDigits rest).map (fun n => -(n : Int))
  | _ => (parseDigits cs).map (fun n => (n : Int))

/-- Parse an optionally-signed `digits.digits` decimal literal. -/
def parseDecimalChars (cs : List Char) : Option Rat :=
  let core : List Char → Option Rat := fun cs =>
    match splitOnChar '.' cs with
    | [a, b] =>
      match parseDigits a, parseDigits b with
      | some ia, some ib => some ((ia : Rat) + (ib : Rat) / ((10 : Rat) ^ b.length))
      | _, _ => none
    | _ => none
  match cs with
  | '-' :: rest => (core rest).map (fun q => -q)
  | _ => core cs

/-- The string forms `pd.to_numeric` parses, restricted to the literal shapes
exercised here: optional sign, digit run, optional fraction, and the
`nan`/`inf` spellings (exponent notation, underscores and whitespace
trimming are outside the model). -/
def parseNumericString (s : String) : Option Value :=
  if s = "nan" ∨ s = "NaN" then some .vNaN
  else if s = "inf" ∨ s = "Inf" ∨ s = "infinity" then some .vInf
  else if s = "-inf" then some .vNegInf
  else
    match parseSignedInt s.data with
    | some n => some (.vInt n)
    | none => (parseDecimalChars s.data).map .vFloat

/-- Element semantics of `pd.to_numeric` on one cell of an object column:
numbers pass through, bools become ints, `None` becomes NaN, strings are
parsed, datetime-likes raise. -/
def to_numeric_cell : Value → Option Value
  | .vInt n => some (.vInt n)
  | .vFloat q => some (.vFloat q)
  | .vNaN => some .vNaN
  | .vInf => some .vInf
  | .vNegInf => some .vNegInf
  | .vBool b => some (.vInt (if b then 1 else 0))
  | .vNone => some .vNaN
  | .vStr s => parseNumericString s
  | .vNaT => none
  | .vDatetime _ => none
  | .vTimedelta _ => none

/-- Element semantics of `pd.to_datetime` on one cell: timestamps and
NaT-likes pass through, strings are parsed (modelled formats: the full
`YYYY-MM-DDTHH:MM:SS` isoformat and `"NaT"`; pandas accepts more formats and
interprets numeric cells as epoch offsets — neither is exercised by the
theorems below, whose datetime columns always hold timestamps or the
encoder's isoformat output). -/
def to_datetime_cell : Value → Option Value
  | .vDatetime t => some (.vDatetime t)
  | .vNaT => some .vNaT
  | .vNone => some .vNaT
  | .vStr s =>
    if s = "NaT" then some .vNaT else (parseTimestampChars s.data).map .vDatetime
  | _ => none

/-- Map each cell through `parse`, filling failures with `nullVal`. -/
def coerceColumn (parse : Value → Option Value) (nullVal : Value)
    (col : List Value) : List Value :=
  col.map (fun v => (parse v).getD nullVal)

/-- Column-wise behaviour of `pd.to_numeric`/`pd.to_datetime` under an
`errors=` policy: `raise` propagates the first parse error, `coerce` fills
failing cells with the null value (`NaN` resp. `NaT`), `ignore` returns the
whole input column unchanged when any cell fails. -/
def applyPolicyColumn (policy : ErrPolicy) (parse : Value → Option Value)
    (nullVal : Value) (col : List Value) : Except String (List Value) :=
  match policy with
  | .raise =>
    if col.all (fun v => (parse v).isSome) then .ok (coerceColumn parse nullVal col)
    else .error ("Unable to parse")
  | .coerce => .ok (coerceColumn parse nullVal col)
  | .ignore =>
    if col.all (fun v => (parse v).isSome) then .ok (coerceColumn parse nullVal col)
    else .ok col

/-- `pd.to_numeric` applied to a column (line 245-247). -/
def pd_to_numeric (policy : ErrPolicy) (col : List Value) : Except String (List Value) :=
  applyPolicyColumn policy to_numeric_cell .vNaN col

/-- `pd.to_datetime` applied to a column (line 256-259). -/
def pd_to_datetime (policy : ErrPolicy) (col : List Value) : Except String (List Value) :=
  applyPolicyColumn policy to_datetime_cell .vNaT col

/-- `.astype(str)` on a column (line 253). -/
def astype_str (col : List Value) : List Value :=
  col.map (fun v => .vStr v.pyStr)

/-! ### The timedelta step (lines 261-274)

`cast_to_timedelta` is written for a scalar, but the module invokes it via
`DataFrame.apply`, which passes each **column** (a `pd.Series`) as the
argument.  `pd.Timedelta(series)` is a `raise`: a Series is not a
Timedelta-convertible scalar, so the bare `except` hands the column back
unchanged.  We model the scalar-or-Series argument explicitly.
-/

/-- A Python value that is either a scalar cell or a whole `pd.Series`. -/
inductive PdObj where
  | scalar (v : Value)
  | series (col : List Value)
deriving DecidableEq, Repr

/-- The `pd.Timedelta(value)` constructor: accepts timedelta scalars and
(modelled) ISO-8601 duration strings; raises on every Series and on
non-convertible scalars. -/
def pd_Timedelta : PdObj → Option Value
  | .series _ => none
  | .scalar v =>
    match v with
    | .vTimedelta d => some (.vTimedelta d)
    | .vStr s => (parseTimedeltaChars s.data).map .vTimedelta
    | _ => none

/-- Lines 266-270: `cast_to_timedelta(s)` — `try: return pd.Timedelta(s)
except: return s`. -/
def cast_to_timedelta (s : PdObj) : PdObj :=
  match pd_Timedelta s with
  | some t => .scalar t
  | none => s

/-- Lines 272-274: `frame.loc[:, timedelta_columns].apply(cast_to_timedelta)`
— `DataFrame.apply` hands `cast_to_timedelta` the whole column. -/
def apply_cast_to_timedelta (col : List Value) : List Value :=
  match cast_to_timedelta (.series col) with
  | .series c => c
  | .scalar v => [v]

/-! ### Inbound Decoder (lines 232-278) -/

/-- Lookup in the echoed `originalDtypes` mapping. -/
def tagOf (types : List (String × Char)) (nm : String) : Option Char :=
  ((types.find? (fun p => p.1 == nm)).map Prod.snd)

/-- The retyping applied to one column according to its echoed tag (lines
241-274): numeric kinds via `pd.to_numeric`, text kinds via `astype(str)`,
`M` via `pd.to_datetime`, `m` via the `cast_to_timedelta` apply; any other
tag leaves the column untouched.  The four source-level batch updates touch
disjoint tag groups, so the per-column formulation is equivalent. -/
def convertColumn (policy : ErrPolicy) (tag : Char) (col : List Value) :
    Except String (List Value) :=
  if tag = 'i' ∨ tag = 'u' ∨ tag = 'f' then pd_to_numeric policy col
  else if tag = 'O' ∨ tag = 'S' ∨ tag = 'U' then .ok (astype_str col)
  else if tag = 'M' then pd_to_datetime policy col
  else if tag = 'm' then .ok (apply_cast_to_timedelta col)
  else .ok col

/-- Lines 240-274: retype every column of the reconstructed frame whose name
appears in `originalDtypes`. -/
def convertTypesFrame (policy : ErrPolicy) (types : List (String × Char))
    (df : DataFrame) : Except String DataFrame :=
  df.mapM (fun c =>
    match tagOf types c.name with
    | none => .ok c
    | some tag => (convertColumn policy tag c.cells).map (fun cs => ⟨c.name, c.dtype, cs⟩))

/-- The widget's `InboundResponse` (already JSON-parsed; the optional
`simplejson.loads` string-unwrapping step of line 233-234 is upstream of
everything modelled here). -/
structure Response where
  rowData : List Record
  originalDtypes : List (String × Char)
  selectedRows : List Record
deriving DecidableEq, Repr

/-- The dictionary `AgGrid` returns: `data` and `selected_rows`. -/
structure GridReturn where
  data : DataFrame
  selected_rows : List Record
deriving DecidableEq, Repr

/-- Lines 145-147 and 232-278: build the return value from the component's
response.  `None` (no interaction yet) keeps the original dataframe and an
empty selection; otherwise the frame is rebuilt from `rowData` and, when
non-empty and `try_to_convert_back_to_original_types` is set, retyped. -/
def AgGrid_process_response (dataframe : DataFrame) (convert : Bool)
    (policy : ErrPolicy) (component_value : Option Response) :
    Except String GridReturn :=
  match component_value with
  | none => .ok ⟨dataframe, []⟩
  | some cv =>
    let frame := fromRecords cv.rowData
    if ¬ frame.isEmpty ∧ convert then
      (convertTypesFrame policy cv.originalDtypes frame).map
        (fun f => ⟨f, cv.selectedRows⟩)
    else .ok ⟨frame, cv.selectedRows⟩

/-! ### Validation of theme and modes (lines 180-202)

The `GridUpdateMode` and `DataReturnMode` enum classes live in
`st_aggrid/shared.py`, which is not part of the given sources; they are
modelled from the spec and from the member lists in the `AgGrid` docstring
(update modes `NO_UPDATE`, `MANUAL`, `VALUE_CHANGED`, `SELECTION_CHANGED`,
`FILTERING_CHANGED`, `SORTING_CHANGED`, `MODEL_CHANGED`; data-return modes
`AS_INPUT`, `FILTERED`, `FILTERED_AND_SORTED`).  `Enum[name]` looks a member
up by exact name, and `str.upper()` is ASCII uppercasing.
-/

/-- ASCII uppercasing of one character (`str.upper()` on the name strings
used here, which are ASCII). -/
def upperChar (c : Char) : Char :=
  if 97 ≤ c.toNat ∧ c.toNat ≤ 122 then Char.ofNat (c.toNat - 32) else c

/-- `s.upper()`. -/
def upperString (s : String) : String := ⟨s.data.map upperChar⟩

inductive DataReturnMode where
  | AS_INPUT
  | FILTERED
  | FILTERED_AND_SORTED
deriving DecidableEq, Repr

/-- `DataReturnMode[name]`: lookup by exact member name. -/
def DataReturnMode.ofName : String → Option DataReturnMode
  | "AS_INPUT" => some .AS_INPUT
  | "FILTERED" => some .FILTERED
  | "FILTERED_AND_SORTED" => some .FILTERED_AND_SORTED
  | _ => none

/-- `f"{member}"`: the rendering of an enum member in an error message. -/
def DataReturnMode.pyStr : DataReturnMode → String
  | .AS_INPUT => "DataReturnMode.AS_INPUT"
  | .FILTERED => "DataReturnMode.FILTERED"
  | .FILTERED_AND_SORTED => "DataReturnMode.FILTERED_AND_SORTED"

inductive GridUpdateMode where
  | NO_UPDATE
  | MANUAL
  | VALUE_CHANGED
  | SELECTION_CHANGED
  | FILTERING_CHANGED
  | SORTING_CHANGED
  | MODEL_CHANGED
deriving DecidableEq, Repr

/-- `GridUpdateMode[name]`: lookup by exact member name (bitwise flag
combinations arrive as already-typed values, never as strings). -/
def GridUpdateMode.ofName : String → Option GridUpdateMode
  | "NO_UPDATE" => some .NO_UPDATE
  | "MANUAL" => some .MANUAL
  | "VALUE_CHANGED" => some .VALUE_CHANGED
  | "SELECTION_CHANGED" => some .SELECTION_CHANGED
  | "FILTERING_CHANGED" => some .FILTERING_CHANGED
  | "SORTING_CHANGED" => some .SORTING_CHANGED
  | "MODEL_CHANGED" => some .MODEL_CHANGED
  | _ => none

/-- A Python argument that is a string, an already-typed enum value, or a
value of any other type (carried with its f-string rendering). -/
inductive PyArg (α : Type) where
  | str (s : String)
  | val (a : α)
  | other (repr : String)
deriving DecidableEq, Repr

/-- The `theme` argument: a string or a non-string value (with its f-string
rendering). -/
inductive ThemeArg where
  | str (s : String)
  | nonstr (repr : String)
deriving DecidableEq, Repr

/-- Line 180. -/
def _available_themes : List String :=
  ["streamlit", "light", "dark", "blue", "fresh", "material"]

/-- The tail of the theme error message: `f"... Available options:
{_available_themes}"` renders the Python list literally. -/
def themeErrSuffix : String :=
  " is not valid. Available options: ['streamlit', 'light', 'dark', 'blue', 'fresh', 'material']"

/-- Lines 180-184: theme validation.  A non-string theme or a string outside
the closed set raises `ValueError(f"{theme} is not valid. Available options:
{_available_themes}")`. -/
def validate_theme : ThemeArg → Except String Unit
  | .str t =>
    if t ∈ _available_themes then .ok () else .error (t ++ themeErrSuffix)
  | .nonstr r => .error (r ++ themeErrSuffix)

/-- Lines 186-193: data-return-mode validation.  Both the inner
`ValueError` (non-str, non-enum argument) and the `KeyError` from
`DataReturnMode[s.upper()]` are caught by the bare `except`, which raises
`ValueError(f"{data_return_mode} is not valid.")` — at that point
`data_return_mode` is still the caller's original argument. -/
def validate_data_return_mode : PyArg DataReturnMode → Except String DataReturnMode
  | .val m => .ok m
  | .str s =>
    match DataReturnMode.ofName (upperString s) with
    | some m => .ok m
    | none => .error (s ++ (" is not valid."))
  | .other r => .error (r ++ (" is not valid."))

/-- Lines 195-202: update-mode validation.  The `except` clause of this block
raises `ValueError(f"{data_return_mode} is not valid.")` — it interpolates
the *data-return mode* (already resolved to an enum member by line 191), not
the offending update mode. -/
def validate_update_mode (um : PyArg GridUpdateMode) (drm : DataReturnMode) :
    Except String GridUpdateMode :=
  match um with
  | .val m => .ok m
  | .str s =>
    match GridUpdateMode.ofName (upperString s) with
    | some m => .ok m
    | none => .error (drm.pyStr ++ (" is not valid."))
  | .other _ => .error (drm.pyStr ++ (" is not valid."))

/-! ### gridOptions and `walk_gridOptions` (lines 175-178)

`walk_gridOptions` and `JsCode` live in `st_aggrid/shared.py`, which is not
part of the given sources.  Modelled from the spec (section 4.3): when the
caller sets `allow_unsafe_jscode`, executable-code markers (`JsCode`) in the
configuration are unwrapped to their raw code text before transmission.  The
call site on line 176-178 discards the return value of `walk_gridOptions`,
so for the unwrapping to reach the transmitted object the walk must update
the caller's mapping in place; we model the call's effect as the value the
caller's `gridOptions` object holds after the call.
-/

mutual
inductive JsTree where
  | jsCode (code : String)
  | leaf (s : String)
  | dict (entries : JsEntries)
  | arr (items : JsItems)
inductive JsEntries where
  | nil
  | cons (key : String) (value : JsTree) (rest : JsEntries)
inductive JsItems where
  | nil
  | cons (value : JsTree) (rest : JsItems)
end

deriving instance DecidableEq for JsTree, JsEntries, JsItems
deriving instance Repr for JsTree, JsEntries, JsItems

mutual
/-- Walk a gridOptions tree, applying `fn` at each leaf (non-dict, non-list)
value, recursing through mappings and lists. -/
def walk_gridOptions (fn : JsTree → JsTree) : JsTree → JsTree
  | .dict es => .dict (walk_entries fn es)
  | .arr xs => .arr (walk_items fn xs)
  | v => fn v
def walk_entries (fn : JsTree → JsTree) : JsEntries → JsEntries
  | .nil => .nil
  | .cons k v rest => .cons k (walk_gridOptions fn v) (walk_entries fn rest)
def walk_items (fn : JsTree → JsTree) : JsItems → JsItems
  | .nil => .nil
  | .cons v rest => .cons (walk_gridOptions fn v) (walk_items fn rest)
end

/-- Line 177: `lambda v: v.js_code if isinstance(v, JsCode) else v`. -/
def unwrap_jscode : JsTree → JsTree
  | .jsCode c => .leaf c
  | v => v

mutual
/-- True when a gridOptions tree contains no `JsCode` marker. -/
def noJsCode : JsTree → Bool
  | .jsCode _ => false
  | .leaf _ => true
  | .dict es => noJsCodeEntries es
  | .arr xs => noJsCodeItems xs
def noJsCodeEntries : JsEntries → Bool
  | .nil => true
  | .cons _ v rest => noJsCode v && noJsCodeEntries rest
def noJsCodeItems : JsItems → Bool
  | .nil => true
  | .cons v rest => noJsCode v && noJsCodeItems rest
end

/-- Lines 175-178: the value the caller's `gridOptions` object holds after
the `AgGrid` call — unchanged unless `allow_unsafe_jscode` is set, in which
case the in-place walk has unwrapped every `JsCode` marker. -/
def AgGrid_gridOptions_after (gridOptions : JsTree) (allow_unsafe_jscode : Bool) :
    JsTree :=
  if allow_unsafe_jscode then walk_gridOptions unwrap_jscode gridOptions
  else gridOptions

/-! ### The full render call -/

/-- The `AgGrid` call (lines 29-278), as a function of its marshalling-
relevant arguments and of the value the component boundary returns
(`component_value`, the result of the single `_component_func` call on lines
204-221).  The stages run in source order: classify/encode/walk (pure, always
succeed), then theme validation (line 180), data-return-mode validation
(lines 186-193), update-mode validation (lines 195-202), and only then is
the boundary value consumed (lines 232-278).  A validation error is raised
before the boundary call, so the result is that error whatever
`component_value` would have been. -/
def AgGrid (dataframe : DataFrame) (gridOptions : JsTree)
    (update_mode : PyArg GridUpdateMode) (data_return_mode : PyArg DataReturnMode)
    (allow_unsafe_jscode : Bool) (try_to_convert_back_to_original_types : Bool)
    (conversion_errors : ErrPolicy) (theme : ThemeArg)
    (component_value : Option Response) : Except String GridReturn := do
  let _frame_dtypes := frame_dtypes dataframe
  let _row_data := to_records (encodeFrame dataframe) (nrows dataframe)
  let _gridOptions_sent := AgGrid_gridOptions_after gridOptions allow_unsafe_jscode
  validate_theme theme
  let drm ← validate_data_return_mode data_return_mode
  let _um ← validate_update_mode update_mode drm
  AgGrid_process_response dataframe try_to_convert_back_to_original_types
    conversion_errors component_value

/-- The identity response for a frame: the widget echoes the encoded rows and
the captured dtype tags verbatim and selects nothing. -/
def identityResponse (df : DataFrame) : Response :=
  ⟨to_records (encodeFrame df) (nrows df), frame_dtypes df, []⟩

/-- Does a cell value have the shape its column's dtype kind declares (and,
for float columns, is it finite)?  Text kinds require genuine strings — an
`object` column may in reality hold any Python value, which is exactly what
claim C1's counterexample exploits. -/
def cellMatchesKind (k : Char) (v : Value) : Bool :=
  match k, v with
  | 'i', .vInt _ => true
  | 'u', .vInt _ => true
  | 'f', .vFloat _ => true
  | 'O', .vStr _ => true
  | 'S', .vStr _ => true
  | 'U', .vStr _ => true
  | 'M', .vDatetime _ => true
  | 'm', .vTimedelta _ => true
  | _, _ => false

/-! ### Substring occurrence (used to reason about error-message content) -/

/-- Is `pat` an initial segment of `cs`? -/
def leadsWith : List Char → List Char → Bool
  | [], _ => true
  | _ :: _, [] => false
  | p :: ps, c :: cs => p = c && leadsWith ps cs

/-- Does `pat` occur contiguously anywhere in the text? -/
def mentions (pat : List Char) : List Char → Bool
  | [] => leadsWith pat []
  | c :: cs => leadsWith pat (c :: cs) || mentions pat cs

/-! ## Lemmas -/

/-! ### Digit rendering/parsing inversion -/

theorem digitChar_isDigit {d : Nat} (h : d < 10) : (digitChar d).isDigit = true := by
  interval_cases d <;> decide

theorem charDigit_digitChar {d : Nat} (h : d < 10) : charDigit (digitChar d) = d := by
  interval_cases d <;> decide

theorem natDigitsAux_all_digit :
    ∀ fuel n, ∀ c ∈ natDigitsAux fuel n, c.isDigit = true := by
  intro fuel
  induction fuel with
  | zero => intro n c hc; simp [natDigitsAux] at hc
  | succ fuel ih =>
    intro n c hc
    cases n with
    | zero => simp [natDigitsAux] at hc
    | succ m =>
      rw [natDigitsAux] at hc
      rcases List.mem_append.1 hc with h | h
      · exact ih _ _ h
      · rcases List.mem_singleton.1 h with rfl
        exact digitChar_isDigit (Nat.mod_lt _ (by omega))

theorem natChars_all_digit (n : Nat) : ∀ c ∈ natChars n, c.isDigit = true := by
  intro c hc
  unfold natChars at hc
  split at hc
  · rcases List.mem_singleton.1 hc with rfl; decide
  · exact natDigitsAux_all_digit _ _ _ hc

theorem padChars_all_digit (w n : Nat) : ∀ c ∈ padChars w n, c.isDigit = true := by
  intro c hc
  rcases List.mem_append.1 hc with h | h
  · rcases List.eq_of_mem_replicate h with rfl; decide
  · exact natChars_all_digit _ _ h

theorem natDigitsAux_ne_nil {fuel n : Nat} (hn : 0 < n) (hf : n ≤ fuel) :
    natDigitsAux fuel n ≠ [] := by
  cases fuel with
  | zero => omega
  | succ fuel =>
    cases n with
    | zero => omega
    | succ m => rw [natDigitsAux]; simp

theorem natChars_ne_nil (n : Nat) : natChars n ≠ [] := by
  unfold natChars
  split
  · simp
  · exact natDigitsAux_ne_nil (by omega) (by omega)

theorem foldl_digitStep_zeros (k : Nat) :
    List.foldl digitStep 0 (List.replicate k '0') = 0 := by
  induction k with
  | zero => rfl
  | succ k ih => simpa [List.replicate_succ, digitStep, charDigit] using ih

theorem foldl_digitStep_natDigitsAux :
    ∀ fuel n a, n ≤ fuel →
      List.foldl digitStep a (natDigitsAux fuel n) =
        a * 10 ^ (natDigitsAux fuel n).length + n := by
  intro fuel
  induction fuel with
  | zero =>
    intro n a h
    have : n = 0 := by omega
    subst this
    simp [natDigitsAux]
  | succ fuel ih =>
    intro n a h
    cases n with
    | zero => simp [natDigitsAux]
    | succ m =>
      rw [natDigitsAux]
      have hle : (m + 1) / 10 ≤ fuel := by
        have hlt : (m + 1) / 10 < m + 1 := Nat.div_lt_self (by omega) (by omega)
        omega
      rw [List.foldl_append]
      rw [ih _ a hle]
      simp only [List.foldl_cons, List.foldl_nil, digitStep, List.length_append,
        List.length_singleton]
      rw [charDigit_digitChar (Nat.mod_lt _ (by omega))]
      have expand :
          10 * (a * 10 ^ (natDigitsAux fuel ((m + 1) / 10)).length + (m + 1) / 10) +
              (m + 1) % 10 =
            a * 10 ^ ((natDigitsAux fuel ((m + 1) / 10)).length + 1) +
              (10 * ((m + 1) / 10) + (m + 1) % 10) := by
        ring
      rw [expand, Nat.div_add_mod]

theorem foldl_digitStep_natChars (n : Nat) :
    List.foldl digitStep 0 (natChars n) = n := by
  unfold natChars
  split
  · subst ‹n = 0›; decide
  · rw [foldl_digitStep_natDigitsAux n n 0 le_rfl]; ring

theorem parseDigits_natChars (n : Nat) : parseDigits (natChars n) = some n := by
  unfold parseDigits
  rw [if_pos]
  · rw [foldl_digitStep_natChars]
  · exact ⟨natChars_ne_nil n, List.all_eq_true.2 fun c hc => natChars_all_digit n c hc⟩

theorem parseDigits_padChars (w n : Nat) : parseDigits (padChars w n) = some n := by
  unfold parseDigits
  rw [if_pos]
  · unfold padChars
    rw [List.foldl_append, foldl_digitStep_zeros, foldl_digitStep_natChars]
  · constructor
    · unfold padChars
      intro h
      exact natChars_ne_nil n (List.append_eq_nil.1 h).2
    · exact List.all_eq_true.2 fun c hc => padChars_all_digit w n c hc

/-! ### `splitOnChar` -/

theorem splitOnChar_nil (sep : Char) : splitOnChar sep [] = [[]] := rfl

theorem splitOnChar_cons_sep (sep : Char) (cs : List Char) :
    splitOnChar sep (sep :: cs) = [] :: splitOnChar sep cs := by
  simp [splitOnChar]

theorem splitOnChar_ne_nil (sep : Char) (cs : List Char) :
    splitOnChar sep cs ≠ [] := by
  induction cs with
  | nil => simp [splitOnChar]
  | cons c cs ih =>
    rw [splitOnChar]
    split
    · simp
    · match h : splitOnChar sep cs with
      | [] => exact absurd h ih
      | g :: gs => simp

theorem splitOnChar_cons_ne {sep c : Char} (cs : List Char) (h : c ≠ sep) :
    splitOnChar sep (c :: cs) =
      match splitOnChar sep cs with
      | [] => [[c]]
      | g :: gs => (c :: g) :: gs := by
  rw [splitOnChar, if_neg h]

theorem splitOnChar_append_sep {sep : Char} {a : List Char}
    (h : ∀ c ∈ a, c ≠ sep) (b : List Char) :
    splitOnChar sep (a ++ sep :: b) = a :: splitOnChar sep b := by
  induction a with
  | nil => simpa using splitOnChar_cons_sep sep b
  | cons c a ih =>
    have hc : c ≠ sep := h c (by simp)
    have ih' := ih (fun x hx => h x (by simp [hx]))
    rw [List.cons_append, splitOnChar_cons_ne _ hc, ih']

theorem splitOnChar_no_sep {sep : Char} {a : List Char} (h : ∀ c ∈ a, c ≠ sep) :
    splitOnChar sep a = [a] := by
  induction a with
  | nil => rfl
  | cons c a ih =>
    have hc : c ≠ sep := h c (by simp)
    have ih' := ih (fun x hx => h x (by simp [hx]))
    rw [splitOnChar_cons_ne _ hc, ih']

theorem isDigit_ne_of_ne {c d : Char} (hc : c.isDigit = true) (hd : d.isDigit = false) :
    c ≠ d := by
  intro h; rw [h] at hc; rw [hc] at hd; cases hd

theorem padChars_ne_sep {w n : Nat} {sep : Char} (hsep : sep.isDigit = false) :
    ∀ c ∈ padChars w n, c ≠ sep :=
  fun c hc => isDigit_ne_of_ne (padChars_all_digit w n c hc) hsep

/-- Characters of a `p ++ sep :: (q ++ sep :: r)` sandwich of digit runs are
digits or the separator. -/
theorem mem_triple {p q r : List Char} {sep x : Char}
    (hp : ∀ c ∈ p, c.isDigit = true) (hq : ∀ c ∈ q, c.isDigit = true)
    (hr : ∀ c ∈ r, c.isDigit = true)
    (hx : x ∈ p ++ sep :: (q ++ sep :: r)) : x.isDigit = true ∨ x = sep := by
  rcases List.mem_append.1 hx with h | h
  · exact Or.inl (hp _ h)
  rcases List.mem_cons.1 h with rfl | h
  · exact Or.inr rfl
  rcases List.mem_append.1 h with h | h
  · exact Or.inl (hq _ h)
  rcases List.mem_cons.1 h with rfl | h
  · exact Or.inr rfl
  · exact Or.inl (hr _ h)

/-! ### ISO timestamp inversion: `pd.to_datetime` recovers the instant that
`Timestamp.isoformat` rendered. -/

theorem dateChars_ne_T (t : Timestamp) : ∀ c ∈ t.dateChars, c ≠ 'T' := by
  intro c hc
  rcases mem_triple (padChars_all_digit 4 t.year) (padChars_all_digit 2 t.month)
      (padChars_all_digit 2 t.day) hc with h | rfl
  · exact isDigit_ne_of_ne h (by decide)
  · decide

theorem timeChars_ne_T (t : Timestamp) : ∀ c ∈ t.timeChars, c ≠ 'T' := by
  intro c hc
  rcases mem_triple (padChars_all_digit 2 t.hour) (padChars_all_digit 2 t.minute)
      (padChars_all_digit 2 t.second) hc with h | rfl
  · exact isDigit_ne_of_ne h (by decide)
  · decide

theorem parse3_triple {sep : Char} (hsep : sep.isDigit = false)
    (w1 w2 w3 a b c : Nat) :
    parse3 sep (padChars w1 a ++ sep :: (padChars w2 b ++ sep :: padChars w3 c)) =
      some (a, b, c) := by
  unfold parse3
  rw [splitOnChar_append_sep (padChars_ne_sep hsep),
    splitOnChar_append_sep (padChars_ne_sep hsep),
    splitOnChar_no_sep (padChars_ne_sep hsep)]
  show (match parseDigits (padChars w1 a), parseDigits (padChars w2 b),
          parseDigits (padChars w3 c) with
        | some x, some y, some z => some (x, y, z)
        | _, _, _ => none) = some (a, b, c)
  rw [parseDigits_padChars, parseDigits_padChars, parseDigits_padChars]

theorem parse_iso_timestamp (t : Timestamp) :
    parseTimestampChars t.isoChars = some t := by
  unfold parseTimestampChars Timestamp.isoChars
  rw [splitOnChar_append_sep (dateChars_ne_T t), splitOnChar_no_sep (timeChars_ne_T t)]
  show (match parse3 '-' t.dateChars, parse3 ':' t.timeChars with
        | some (y, mo, da), some (h, mi, se) => some (⟨y, mo, da, h, mi, se⟩ : Timestamp)
        | _, _ => none) = some t
  rw [show parse3 '-' t.dateChars = some (t.year, t.month, t.day) from
      parse3_triple (by decide) 4 2 2 t.year t.month t.day,
    show parse3 ':' t.timeChars = some (t.hour, t.minute, t.second) from
      parse3_triple (by decide) 2 2 2 t.hour t.minute t.second]

/-! ### Records round trip: `pd.DataFrame(to_dict(orient="records"))` -/

theorem find_map_name {β : Type} (df : DataFrame) (F : Column → β) {c : Column}
    (hmem : c ∈ df) (hnd : (df.map Column.name).Nodup) :
    (df.map (fun c => (c.name, F c))).find? (fun p => p.1 == c.name) =
      some (c.name, F c) := by
  induction df with
  | nil => cases hmem
  | cons a tl ih =>
    rw [List.map_cons, List.nodup_cons] at hnd
    rw [List.map_cons, List.find?_cons]
    rcases List.mem_cons.1 hmem with rfl | hmem'
    · simp
    · have hne : (a.name == c.name) = false := by
        rw [beq_eq_false_iff_ne]
        intro h
        exact hnd.1 (h ▸ List.mem_map_of_mem Column.name hmem')
      rw [hne]
      exact ih hmem' hnd.2

theorem map_getD_range (l : List Value) :
    (List.range l.length).map (fun i => l.getD i .vNone) = l := by
  induction l with
  | nil => rfl
  | cons a l ih =>
    rw [List.length_cons, List.range_succ_eq_map, List.map_cons, List.map_map]
    simp only [Function.comp_def, List.getD_cons_zero, List.getD_cons_succ]
    rw [ih]

theorem colFromRecords_rowAt (df : DataFrame) {c : Column} (hmem : c ∈ df)
    (hnd : (df.map Column.name).Nodup) :
    colFromRecords ((List.range c.cells.length).map (rowAt df)) c.name = c.cells := by
  unfold colFromRecords
  rw [List.map_map]
  rw [List.map_congr_left (g := fun i => c.cells.getD i .vNone) ?h]
  · exact map_getD_range c.cells
  · intro i _
    show ((((rowAt df i).find? (fun p => p.1 == c.name)).map Prod.snd).getD .vNone) =
      c.cells.getD i .vNone
    unfold rowAt
    rw [find_map_name df (fun c => c.cells.getD i .vNone) hmem hnd]
    rfl

theorem fromRecords_toRecords (df : DataFrame) (n : Nat) (hn : 0 < n)
    (hnd : (df.map Column.name).Nodup) (hlen : ∀ c ∈ df, c.cells.length = n) :
    fromRecords (to_records df n) =
      df.map (fun c => ⟨c.name, Dtype.object, c.cells⟩) := by
  obtain ⟨m, rfl⟩ : ∃ m, n = m + 1 := ⟨n - 1, by omega⟩
  unfold to_records fromRecords
  rw [List.range_succ_eq_map, List.map_cons]
  show (rowAt df 0).map
      (fun p => (⟨p.1, Dtype.object,
        colFromRecords (rowAt df 0 :: (List.map Nat.succ (List.range m)).map (rowAt df)) p.1⟩ : Column)) = _
  have hrec : rowAt df 0 :: (List.map Nat.succ (List.range m)).map (rowAt df) =
      (List.range (m + 1)).map (rowAt df) := by
    rw [List.range_succ_eq_map, List.map_cons, List.map_map]
  rw [hrec]
  unfold rowAt
  rw [List.map_map]
  refine List.map_congr_left ?_
  intro c hc
  show (⟨c.name, Dtype.object, colFromRecords ((List.range (m + 1)).map (rowAt df)) c.name⟩ : Column) =
    ⟨c.name, Dtype.object, c.cells⟩
  rw [← hlen c hc, colFromRecords_rowAt df hc hnd]

/-! ### List helpers -/

theorem map_eq_self_of_forall {α : Type} {f : α → α} {l : List α}
    (h : ∀ a ∈ l, f a = a) : l.map f = l := by
  induction l with
  | nil => rfl
  | cons a tl ih =>
    rw [List.map_cons, h a (by simp), ih (fun x hx => h x (by simp [hx]))]

theorem mapM_congr_ok {α β : Type} {l : List α} {g : α → Except String β}
    {f : α → β} (h : ∀ a ∈ l, g a = .ok (f a)) : l.mapM g = .ok (l.map f) := by
  induction l with
  | nil => rfl
  | cons a tl ih =>
    rw [List.mapM_cons, h a (by simp), ih (fun x hx => h x (by simp [hx]))]
    rfl

theorem mapM_error_of_exists {α β : Type} {l : List α} {g : α → Except String β}
    (h : ∃ a ∈ l, ∃ e, g a = .error e) : ∃ e, l.mapM g = .error e := by
  induction l with
  | nil => rcases h with ⟨c, hc, _⟩; cases hc
  | cons a tl ih =>
    rcases h with ⟨c, hc, e, hg⟩
    rcases List.mem_cons.1 hc with rfl | hc'
    · exact ⟨e, by rw [List.mapM_cons, hg]; rfl⟩
    · cases hga : g a with
      | error e2 => exact ⟨e2, by rw [List.mapM_cons, hga]; rfl⟩
      | ok b =>
        rcases ih ⟨c, hc', e, hg⟩ with ⟨e3, h3⟩
        exact ⟨e3, by rw [List.mapM_cons, hga, h3]; rfl⟩

/-! ### Per-cell round trips through the encoder and the decoders -/

theorem numeric_cell_roundtrip {k : Char} (hk : k = 'i' ∨ k = 'u' ∨ k = 'f')
    {v : Value} (h : cellMatchesKind k v = true) :
    to_numeric_cell (cast_to_serializable v) = some v := by
  rcases hk with rfl | rfl | rfl <;> cases v <;>
    first | rfl | simp [cellMatchesKind] at h

theorem text_cell_roundtrip {k : Char} (hk : k = 'O' ∨ k = 'S' ∨ k = 'U')
    {v : Value} (h : cellMatchesKind k v = true) :
    Value.vStr (cast_to_serializable v).pyStr = v := by
  rcases hk with rfl | rfl | rfl <;> cases v <;>
    first | rfl | simp [cellMatchesKind] at h

theorem padChars_length (w n : Nat) : w ≤ (padChars w n).length := by
  unfold padChars
  rw [List.length_append, List.length_replicate]
  omega

theorem isoformat_ne_NaT (t : Timestamp) : t.isoformat ≠ "NaT" := by
  intro h
  have hdata : t.isoChars = "NaT".data := congrArg String.data h
  have hlen3 : t.isoChars.length = 3 := by rw [hdata]; rfl
  have h1 := padChars_length 4 t.year
  have h2 := padChars_length 2 t.month
  have h3 := padChars_length 2 t.day
  have h4 := padChars_length 2 t.hour
  have h5 := padChars_length 2 t.minute
  have h6 := padChars_length 2 t.second
  have hlen : 19 ≤ t.isoChars.length := by
    unfold Timestamp.isoChars Timestamp.dateChars Timestamp.timeChars
    simp only [List.length_append, List.length_cons]
    omega
  omega

theorem to_datetime_cast (t : Timestamp) :
    to_datetime_cell (cast_to_serializable (.vDatetime t)) = some (.vDatetime t) := by
  show (if t.isoformat = "NaT" then some Value.vNaT
    else (parseTimestampChars t.isoformat.data).map Value.vDatetime) = some (.vDatetime t)
  rw [if_neg (isoformat_ne_NaT t),
    show t.isoformat.data = t.isoChars from rfl, parse_iso_timestamp]
  rfl

theorem datetime_cell_roundtrip {v : Value} (h : cellMatchesKind 'M' v = true) :
    to_datetime_cell (cast_to_serializable v) = some v := by
  cases v <;> first | exact to_datetime_cast _ | simp [cellMatchesKind] at h

/-! ### Column-level conversion lemmas -/

theorem apply_cast_to_timedelta_id (col : List Value) :
    apply_cast_to_timedelta col = col := rfl

theorem applyPolicyColumn_coerce (parse : Value → Option Value) (nullVal : Value)
    (col : List Value) :
    applyPolicyColumn .coerce parse nullVal col = .ok (coerceColumn parse nullVal col) :=
  rfl

theorem applyPolicyColumn_raise_error {parse : Value → Option Value}
    {nullVal : Value} {col : List Value} (h : ∃ v ∈ col, parse v = none) :
    applyPolicyColumn .raise parse nullVal col = .error ("Unable to parse") := by
  unfold applyPolicyColumn
  rw [if_neg]
  intro hall
  rcases h with ⟨v, hv, hpv⟩
  have := List.all_eq_true.1 hall v hv
  rw [hpv] at this
  cases this

theorem applyPolicyColumn_ignore_noop {parse : Value → Option Value}
    {nullVal : Value} {col : List Value} (h : ∃ v ∈ col, parse v = none) :
    applyPolicyColumn .ignore parse nullVal col = .ok col := by
  show (if (col.all fun v => (parse v).isSome) = true
      then Except.ok (coerceColumn parse nullVal col)
      else Except.ok col) = Except.ok col
  rw [if_neg]
  intro hall
  rcases h with ⟨v, hv, hpv⟩
  have := List.all_eq_true.1 hall v hv
  rw [hpv] at this
  cases this

theorem convertColumn_numeric {tag : Char} (h : tag = 'i' ∨ tag = 'u' ∨ tag = 'f')
    (policy : ErrPolicy) (col : List Value) :
    convertColumn policy tag col = pd_to_numeric policy col := by
  unfold convertColumn
  rw [if_pos h]

theorem convertColumn_text {tag : Char} (h : tag = 'O' ∨ tag = 'S' ∨ tag = 'U')
    (policy : ErrPolicy) (col : List Value) :
    convertColumn policy tag col = .ok (astype_str col) := by
  have h1 : ¬ (tag = 'i' ∨ tag = 'u' ∨ tag = 'f') := by
    rcases h with rfl | rfl | rfl <;> decide
  unfold convertColumn
  rw [if_neg h1, if_pos h]

theorem convertColumn_M (policy : ErrPolicy) (col : List Value) :
    convertColumn policy 'M' col = pd_to_datetime policy col := rfl

theorem convertColumn_m (policy : ErrPolicy) (col : List Value) :
    convertColumn policy 'm' col = .ok col := rfl

theorem mapM_map_congr_ok {α β γ : Type} {l : List α} {f : α → β}
    {g : β → Except String γ} {h : α → γ} (H : ∀ a ∈ l, g (f a) = .ok (h a)) :
    (l.map f).mapM g = .ok (l.map h) := by
  induction l with
  | nil => rfl
  | cons a tl ih =>
    rw [List.map_cons, List.mapM_cons, H a (by simp),
      ih (fun x hx => H x (by simp [hx]))]
    rfl

theorem cellMatchesKind_b_false (v : Value) : cellMatchesKind 'b' v = false := by
  cases v <;> rfl

theorem cellMatchesKind_c_false (v : Value) : cellMatchesKind 'c' v = false := by
  cases v <;> rfl

theorem convertColumn_coerce_numeric_id {k : Char} (hk : k = 'i' ∨ k = 'u' ∨ k = 'f')
    (cells : List Value) (h : ∀ v ∈ cells, cellMatchesKind k v = true) :
    convertColumn .coerce k (cells.map cast_to_serializable) = .ok cells := by
  rw [convertColumn_numeric hk]
  show Except.ok (coerceColumn to_numeric_cell .vNaN (cells.map cast_to_serializable)) =
    Except.ok cells
  unfold coerceColumn
  rw [List.map_map]
  congr 1
  exact map_eq_self_of_forall (fun v hv => by
    show (to_numeric_cell (cast_to_serializable v)).getD .vNaN = v
    rw [numeric_cell_roundtrip hk (h v hv)]
    rfl)

theorem convertColumn_coerce_text_id {k : Char} (hk : k = 'O' ∨ k = 'S' ∨ k = 'U')
    (cells : List Value) (h : ∀ v ∈ cells, cellMatchesKind k v = true) :
    convertColumn .coerce k (cells.map cast_to_serializable) = .ok cells := by
  rw [convertColumn_text hk]
  unfold astype_str
  rw [List.map_map]
  congr 1
  exact map_eq_self_of_forall (fun v hv => by
    show Value.vStr (cast_to_serializable v).pyStr = v
    exact text_cell_roundtrip hk (h v hv))

theorem convertColumn_coerce_M_id (cells : List Value)
    (h : ∀ v ∈ cells, cellMatchesKind 'M' v = true) :
    convertColumn .coerce 'M' (cells.map cast_to_serializable) = .ok cells := by
  rw [convertColumn_M]
  show Except.ok (coerceColumn to_datetime_cell .vNaT (cells.map cast_to_serializable)) =
    Except.ok cells
  unfold coerceColumn
  rw [List.map_map]
  congr 1
  exact map_eq_self_of_forall (fun v hv => by
    show (to_datetime_cell (cast_to_serializable v)).getD .vNaT = v
    rw [datetime_cell_roundtrip (h v hv)]
    rfl)

/-- Identity decode of one column: under `coerce`, a column whose cells match
its captured dtype kind comes back with the original cells — except a
duration (`'m'`) column, whose retype step is the identity on the encoded
ISO strings (see the `DataFrame.apply` analysis at `cast_to_timedelta`). -/
theorem convertColumn_identity_coerce (d : Dtype) (cells : List Value)
    (h : ∀ v ∈ cells, cellMatchesKind d.kind v = true) :
    convertColumn .coerce d.kind (cells.map cast_to_serializable) =
      .ok (if d.kind = 'm' then cells.map cast_to_serializable else cells) := by
  cases d with
  | int64 =>
    rw [if_neg (by decide)]
    exact convertColumn_coerce_numeric_id (Or.inl rfl) cells h
  | uint64 =>
    rw [if_neg (by decide)]
    exact convertColumn_coerce_numeric_id (Or.inr (Or.inl rfl)) cells h
  | float64 =>
    rw [if_neg (by decide)]
    exact convertColumn_coerce_numeric_id (Or.inr (Or.inr rfl)) cells h
  | object =>
    rw [if_neg (by decide)]
    exact convertColumn_coerce_text_id (Or.inl rfl) cells h
  | bytes_ =>
    rw [if_neg (by decide)]
    exact convertColumn_coerce_text_id (Or.inr (Or.inl rfl)) cells h
  | unicode_ =>
    rw [if_neg (by decide)]
    exact convertColumn_coerce_text_id (Or.inr (Or.inr rfl)) cells h
  | datetime64 =>
    rw [if_neg (by decide)]
    exact convertColumn_coerce_M_id cells h
  | timedelta64 =>
    rw [if_pos (show Dtype.timedelta64.kind = 'm' from rfl)]
    exact convertColumn_m .coerce (cells.map cast_to_serializable)
  | bool_ =>
    cases cells with
    | nil => rw [if_neg (by decide)]; rfl
    | cons v vs =>
      exfalso
      have hv : cellMatchesKind 'b' v = true := h v (List.mem_cons_self v vs)
      rw [cellMatchesKind_b_false] at hv
      cases hv
  | complex128 =>
    cases cells with
    | nil => rw [if_neg (by decide)]; rfl
    | cons v vs =>
      exfalso
      have hv : cellMatchesKind 'c' v = true := h v (List.mem_cons_self v vs)
      rw [cellMatchesKind_c_false] at hv
      cases hv

theorem encodeFrame_names (df : DataFrame) :
    (encodeFrame df).map Column.name = df.map Column.name := by
  unfold encodeFrame
  rw [List.map_map]
  rfl

theorem tagOf_frame_dtypes {df : DataFrame} {c : Column} (hmem : c ∈ df)
    (hnd : (df.map Column.name).Nodup) :
    tagOf (frame_dtypes df) c.name = some c.dtype.kind := by
  unfold tagOf frame_dtypes
  rw [find_map_name df (fun c => c.dtype.kind) hmem hnd]
  rfl

/-- Identity decode of a whole frame under `coerce`. -/
theorem convertTypesFrame_identity (df : DataFrame)
    (hnd : (df.map Column.name).Nodup)
    (hkind : ∀ c ∈ df, ∀ v ∈ c.cells, cellMatchesKind c.dtype.kind v = true) :
    convertTypesFrame .coerce (frame_dtypes df)
        (df.map (fun c => ⟨c.name, Dtype.object, c.cells.map cast_to_serializable⟩)) =
      .ok (df.map (fun c => ⟨c.name, Dtype.object,
        if c.dtype.kind = 'm' then c.cells.map cast_to_serializable else c.cells⟩)) := by
  unfold convertTypesFrame
  refine mapM_map_congr_ok ?_
  intro c hc
  show (match tagOf (frame_dtypes df) c.name with
    | none => Except.ok (⟨c.name, Dtype.object, c.cells.map cast_to_serializable⟩ : Column)
    | some tag =>
      (convertColumn .coerce tag (c.cells.map cast_to_serializable)).map
        (fun cs => ⟨c.name, Dtype.object, cs⟩)) =
    Except.ok (⟨c.name, Dtype.object,
      if c.dtype.kind = 'm' then c.cells.map cast_to_serializable else c.cells⟩ : Column)
  rw [tagOf_frame_dtypes hc hnd]
  show (convertColumn .coerce c.dtype.kind (c.cells.map cast_to_serializable)).map
      (fun cs => (⟨c.name, Dtype.object, cs⟩ : Column)) = _
  rw [convertColumn_identity_coerce c.dtype c.cells (hkind c hc)]
  rfl

/-! ### `walk_gridOptions` leaves marker-free trees unchanged -/

mutual
theorem walk_unwrap_id_tree :
    ∀ t : JsTree, noJsCode t = true → walk_gridOptions unwrap_jscode t = t
  | .jsCode _, h => nomatch h
  | .leaf _, _ => rfl
  | .dict es, h => congrArg JsTree.dict (walk_unwrap_id_entries es h)
  | .arr xs, h => congrArg JsTree.arr (walk_unwrap_id_items xs h)
theorem walk_unwrap_id_entries :
    ∀ es : JsEntries, noJsCodeEntries es = true → walk_entries unwrap_jscode es = es
  | .nil, _ => rfl
  | .cons k v rest, h => by
    have hsplit : noJsCode v = true ∧ noJsCodeEntries rest = true := by
      have h' : (noJsCode v && noJsCodeEntries rest) = true := h
      simpa using h'
    show JsEntries.cons k (walk_gridOptions unwrap_jscode v) (walk_entries unwrap_jscode rest) =
      JsEntries.cons k v rest
    rw [walk_unwrap_id_tree v hsplit.1, walk_unwrap_id_entries rest hsplit.2]
theorem walk_unwrap_id_items :
    ∀ xs : JsItems, noJsCodeItems xs = true → walk_items unwrap_jscode xs = xs
  | .nil, _ => rfl
  | .cons v rest, h => by
    have hsplit : noJsCode v = true ∧ noJsCodeItems rest = true := by
      have h' : (noJsCode v && noJsCodeItems rest) = true := h
      simpa using h'
    show JsItems.cons (walk_gridOptions unwrap_jscode v) (walk_items unwrap_jscode rest) =
      JsItems.cons v rest
    rw [walk_unwrap_id_tree v hsplit.1, walk_unwrap_id_items rest hsplit.2]
end

/-! ### Identity decode at the response-processing level -/

theorem AgGrid_identity_decode (df : DataFrame)
    (hnd : (df.map Column.name).Nodup) (hn : 0 < nrows df)
    (hlen : ∀ c ∈ df, c.cells.length = nrows df)
    (hkind : ∀ c ∈ df, ∀ v ∈ c.cells, cellMatchesKind c.dtype.kind v = true) :
    AgGrid_process_response df true .coerce (some (identityResponse df)) =
      .ok ⟨df.map (fun c => ⟨c.name, Dtype.object,
        if c.dtype.kind = 'm' then c.cells.map cast_to_serializable else c.cells⟩), []⟩ := by
  have hnd' : ((encodeFrame df).map Column.name).Nodup := by
    rw [encodeFrame_names]; exact hnd
  have hlen' : ∀ c ∈ encodeFrame df, c.cells.length = nrows df := by
    intro c hc
    unfold encodeFrame at hc
    rcases List.mem_map.1 hc with ⟨c0, hc0, rfl⟩
    simpa using hlen c0 hc0
  have hframe : fromRecords (to_records (encodeFrame df) (nrows df)) =
      df.map (fun c => ⟨c.name, Dtype.object, c.cells.map cast_to_serializable⟩) := by
    rw [fromRecords_toRecords (encodeFrame df) (nrows df) hn hnd' hlen']
    unfold encodeFrame
    rw [List.map_map]
    rfl
  have hempty : DataFrame.isEmpty
      (df.map (fun c => ⟨c.name, Dtype.object, c.cells.map cast_to_serializable⟩)) = false := by
    cases df with
    | nil => simp [nrows] at hn
    | cons c0 rest =>
      have hcells : c0.cells ≠ [] := by
        have := hlen c0 (by simp)
        intro hnil
        rw [hnil] at this
        simp [nrows] at hn this
        omega
      unfold DataFrame.isEmpty
      rw [List.map_cons, List.all_cons]
      have : (List.map cast_to_serializable c0.cells).isEmpty = false := by
        cases hc : c0.cells with
        | nil => exact absurd hc hcells
        | cons a l => rfl
      rw [this]
      rfl
  show (let frame := fromRecords (to_records (encodeFrame df) (nrows df))
    if ¬ frame.isEmpty ∧ true then
      (convertTypesFrame .coerce (frame_dtypes df) frame).map
        (fun f => (⟨f, []⟩ : GridReturn))
    else .ok ⟨frame, []⟩) = _
  rw [hframe]
  rw [if_pos (by rw [hempty]; exact ⟨by decide, rfl⟩)]
  rw [convertTypesFrame_identity df hnd hkind]
  rfl

theorem convertTypesFrame_raise_of_column {types : List (String × Char)}
    {df : DataFrame} {c : Column} (hc : c ∈ df) {tag : Char}
    (htag : tagOf types c.name = some tag) {e : String}
    (hconv : convertColumn .raise tag c.cells = .error e) :
    ∃ e2, convertTypesFrame .raise types df = .error e2 := by
  apply mapM_error_of_exists
  refine ⟨c, hc, e, ?_⟩
  show (match tagOf types c.name with
    | none => Except.ok c
    | some tag =>
      (convertColumn .raise tag c.cells).map (fun cs => (⟨c.name, c.dtype, cs⟩ : Column))) =
    Except.error e
  rw [htag]
  show Except.map (fun cs => (⟨c.name, c.dtype, cs⟩ : Column))
    (convertColumn .raise tag c.cells) = Except.error e
  rw [hconv]
  rfl

/-! ## Claim theorems -/

/-- C1 (corrected): the round trip is *not* an identity on every NaN/inf-free
table.  First counterexample: an `object`-tagged (text) column holding the
integer `5` — the decoder's `astype(str)` forces the cell to the string
`"5"`, so the reconstructed text column differs from the original.  Second
counterexample: a table with a column but zero rows — the reconstructed
frame is empty (`pd.DataFrame([])` has no columns), so the table is not
recovered.  Both are evaluated through the full `AgGrid` pipeline with the
identity response, `convertTypes` on and policy `coerce`. -/
theorem C1_counterexample :
    (AgGrid [⟨"name", Dtype.object, [.vInt 5]⟩] (.dict .nil) (.str ("value_changed"))
        (.str ("as_input")) false true .coerce (.str ("light"))
        (some (identityResponse [⟨"name", Dtype.object, [.vInt 5]⟩])) =
      .ok ⟨[⟨"name", Dtype.object, [.vStr ("5")]⟩], []⟩) ∧
    Value.vStr ("5") ≠ Value.vInt 5 ∧
    (AgGrid [⟨"a", Dtype.int64, []⟩] (.dict .nil) (.str ("value_changed"))
        (.str ("as_input")) false true .coerce (.str ("light"))
        (some (identityResponse [⟨"a", Dtype.int64, []⟩])) =
      .ok ⟨[], []⟩) ∧
    ([] : DataFrame) ≠ [⟨"a", Dtype.int64, []⟩] :=
  ⟨by decide, by decide, by decide, by decide⟩

/-- C1 (amended): for every table with at least one row, pairwise-distinct
column names, equal column lengths, and whose cells match their column's
declared dtype kind (numeric cells are finite numbers — no NaN/inf — text
cells are strings, datetime cells timestamps, duration cells timedeltas),
encoding and decoding the identity response (`convertTypes=true`, policy
`coerce`) recovers every numeric, text and datetime column exactly;
duration columns come back as the ISO-formatted strings of the original
durations (equal to the originals up to formatting, since the per-cell
duration re-parse is a no-op — see C4). -/
theorem C1_roundtrip_amended (df : DataFrame) (go : JsTree)
    (hnd : (df.map Column.name).Nodup) (hn : 0 < nrows df)
    (hlen : ∀ c ∈ df, c.cells.length = nrows df)
    (hkind : ∀ c ∈ df, ∀ v ∈ c.cells, cellMatchesKind c.dtype.kind v = true) :
    AgGrid df go (.str ("value_changed")) (.str ("as_input")) false true .coerce
        (.str ("light")) (some (identityResponse df)) =
      .ok ⟨df.map (fun c => ⟨c.name, Dtype.object,
        if c.dtype.kind = 'm' then c.cells.map cast_to_serializable else c.cells⟩), []⟩ := by
  show AgGrid_process_response df true .coerce (some (identityResponse df)) = _
  exact AgGrid_identity_decode df hnd hn hlen hkind

/-- The example table of the spec's scenario (section 8), with a duration
column added. -/
def c1WitnessFrame : DataFrame :=
  [⟨"id", .int64, [.vInt 1, .vInt 2]⟩,
   ⟨"name", .object, [.vStr ("a"), .vStr ("b")]⟩,
   ⟨"t", .datetime64,
     [.vDatetime ⟨2020, 1, 1, 0, 0, 0⟩, .vDatetime ⟨2021, 1, 1, 0, 0, 0⟩]⟩,
   ⟨"dur", .timedelta64, [.vTimedelta ⟨1, 2, 3, 4⟩, .vTimedelta ⟨0, 0, 1, 0⟩]⟩]

/-- C1 witness: the amended round trip at the spec's concrete scenario. -/
theorem C1_roundtrip_witness :
    AgGrid c1WitnessFrame (.dict .nil) (.str ("value_changed")) (.str ("as_input"))
        false true .coerce (.str ("light"))
        (some (identityResponse c1WitnessFrame)) =
      .ok ⟨c1WitnessFrame.map (fun c => ⟨c.name, Dtype.object,
        if c.dtype.kind = 'm' then c.cells.map cast_to_serializable else c.cells⟩), []⟩ :=
  C1_roundtrip_amended c1WitnessFrame (.dict .nil) (by decide) (by decide)
    (by decide) (by decide)

/-- C2: `cast_to_serializable` implements exactly the spec's ordered
per-cell policy (date/time textual capability first, then numeric with
nan/inf stringified and finite numbers passed through, else string form),
and it is total into JSON-safe scalars: every output is a string or a
finite number, so the serialized rows never contain raw `NaN`/`Infinity`
tokens. -/
theorem C2_encoder_policy_total (v : Value) :
    cast_to_serializable v = encoder_policy_spec v ∧
    jsonSafeScalar (cast_to_serializable v) = true := by
  constructor
  · rfl
  · cases v <;> rfl

/-- C3: when the boundary returns no response, the call returns the original
input table object unchanged and an empty selection — both at the
response-processing level (for every flag/policy combination) and through
the full `AgGrid` pipeline with valid arguments. -/
theorem C3_no_response_identity :
    (∀ (df : DataFrame) (convert : Bool) (policy : ErrPolicy),
      AgGrid_process_response df convert policy none = .ok ⟨df, []⟩) ∧
    (∀ (df : DataFrame) (go : JsTree) (allow convert : Bool) (policy : ErrPolicy),
      AgGrid df go (.str ("value_changed")) (.str ("as_input")) allow convert policy
        (.str ("light")) none = .ok ⟨df, []⟩) :=
  ⟨fun _ _ _ => rfl, fun _ _ _ _ _ => rfl⟩

/-- C4 (code bug): duration-tagged columns are *not* parsed one cell at a
time.  `cast_to_timedelta` is applied through `DataFrame.apply`, which
passes the whole column Series to `pd.Timedelta`; that always raises, and
the bare `except` returns the column unchanged — so even a perfectly
well-formed duration cell (shown parseable by `pd_Timedelta` on the scalar)
is left as its encoded string, under every error policy. -/
theorem C4_duration_conversion_noop :
    (∀ col : List Value, apply_cast_to_timedelta col = col) ∧
    (convertColumn .raise 'm' [.vStr ("P0DT0H1M0S"), .vStr ("not a duration")] =
      .ok [.vStr ("P0DT0H1M0S"), .vStr ("not a duration")]) ∧
    (convertColumn .coerce 'm' [.vStr ("P0DT0H1M0S"), .vStr ("not a duration")] =
      .ok [.vStr ("P0DT0H1M0S"), .vStr ("not a duration")]) ∧
    (convertColumn .ignore 'm' [.vStr ("P0DT0H1M0S"), .vStr ("not a duration")] =
      .ok [.vStr ("P0DT0H1M0S"), .vStr ("not a duration")]) ∧
    (pd_Timedelta (.scalar (.vStr ("P0DT0H1M0S"))) = some (.vTimedelta ⟨0, 0, 1, 0⟩)) ∧
    (pd_Timedelta (.series [.vStr ("P0DT0H1M0S"), .vStr ("not a duration")]) = none) :=
  ⟨fun _ => rfl, rfl, rfl, rfl, by decide, rfl⟩

/-- C5: with `convertTypes` enabled, numeric-tagged (`i`/`u`/`f`) and
datetime-tagged (`M`) columns are parsed column-wise under the caller's
error policy — `raise` propagates the parse error out of the whole decode,
`coerce` fills each failing cell with the null value (`NaN` for numeric,
`NaT` for datetime) while parsing the rest, `ignore` hands back the original
column when any cell fails — and text-tagged (`O`/`S`/`U`) columns are
forced to their string representation under every policy. -/
theorem C5_policy_conversion :
    (∀ (types : List (String × Char)) (df : DataFrame) (c : Column) (tag : Char),
      c ∈ df → tagOf types c.name = some tag → (tag = 'i' ∨ tag = 'u' ∨ tag = 'f') →
      (∃ v ∈ c.cells, to_numeric_cell v = none) →
      ∃ e, convertTypesFrame .raise types df = .error e) ∧
    (∀ (types : List (String × Char)) (df : DataFrame) (c : Column),
      c ∈ df → tagOf types c.name = some 'M' →
      (∃ v ∈ c.cells, to_datetime_cell v = none) →
      ∃ e, convertTypesFrame .raise types df = .error e) ∧
    (∀ (tag : Char) (col : List Value), (tag = 'i' ∨ tag = 'u' ∨ tag = 'f') →
      convertColumn .coerce tag col =
        .ok (col.map (fun v => (to_numeric_cell v).getD .vNaN))) ∧
    (∀ col : List Value,
      convertColumn .coerce 'M' col =
        .ok (col.map (fun v => (to_datetime_cell v).getD .vNaT))) ∧
    (∀ (tag : Char) (col : List Value), (tag = 'i' ∨ tag = 'u' ∨ tag = 'f') →
      (∃ v ∈ col, to_numeric_cell v = none) →
      convertColumn .ignore tag col = .ok col) ∧
    (∀ col : List Value, (∃ v ∈ col, to_datetime_cell v = none) →
      convertColumn .ignore 'M' col = .ok col) ∧
    (∀ (policy : ErrPolicy) (tag : Char) (col : List Value),
      (tag = 'O' ∨ tag = 'S' ∨ tag = 'U') →
      convertColumn policy tag col = .ok (col.map (fun v => .vStr v.pyStr))) := by
  refine ⟨?_, ?_, ?_, ?_, ?_, ?_, ?_⟩
  · intro types df c tag hc htag hnum hbad
    have herr : convertColumn .raise tag c.cells = .error ("Unable to parse") := by
      rw [convertColumn_numeric hnum]
      exact applyPolicyColumn_raise_error hbad
    exact convertTypesFrame_raise_of_column hc htag herr
  · intro types df c hc htag hbad
    have herr : convertColumn .raise 'M' c.cells = .error ("Unable to parse") := by
      rw [convertColumn_M]
      exact applyPolicyColumn_raise_error hbad
    exact convertTypesFrame_raise_of_column hc htag herr
  · intro tag col htag
    rw [convertColumn_numeric htag]
    rfl
  · intro col
    rw [convertColumn_M]
    rfl
  · intro tag col htag hbad
    rw [convertColumn_numeric htag]
    exact applyPolicyColumn_ignore_noop hbad
  · intro col hbad
    rw [convertColumn_M]
    exact applyPolicyColumn_ignore_noop hbad
  · intro policy tag col htag
    rw [convertColumn_text htag]
    rfl

/-- C5 witness: the policy behaviours at concrete columns — a numeric column
with an unparseable cell propagates under `raise`, is NaN-filled under
`coerce`, is left untouched under `ignore`; a datetime column with a junk
cell is NaT-filled under `coerce`; text columns are stringified. -/
theorem C5_witness :
    (∃ e, convertTypesFrame .raise [("x", 'i')]
      [⟨"x", Dtype.object, [.vStr ("boom"), .vInt 7]⟩] = .error e) ∧
    (convertColumn .coerce 'i' [.vStr ("boom"), .vInt 7] = .ok [.vNaN, .vInt 7]) ∧
    (convertColumn .coerce 'M' [.vStr ("junk"), .vStr ("2020-01-01T00:00:00")] =
      .ok [.vNaT, .vDatetime ⟨2020, 1, 1, 0, 0, 0⟩]) ∧
    (convertColumn .ignore 'f' [.vStr ("boom"), .vInt 7] =
      .ok [.vStr ("boom"), .vInt 7]) ∧
    (convertColumn .raise 'O' [.vInt 3, .vNone] = .ok [.vStr ("3"), .vStr ("None")]) := by
  obtain ⟨h1, h2, h3, h4, h5, h6, h7⟩ := C5_policy_conversion
  refine ⟨?_, ?_, ?_, ?_, ?_⟩
  · exact h1 [("x", 'i')] [⟨"x", Dtype.object, [.vStr ("boom"), .vInt 7]⟩]
      ⟨"x", Dtype.object, [.vStr ("boom"), .vInt 7]⟩ 'i' (by decide) (by decide)
      (Or.inl rfl) ⟨.vStr ("boom"), by decide, by decide⟩
  · exact h3 'i' [.vStr ("boom"), .vInt 7] (Or.inl rfl)
  · exact h4 [.vStr ("junk"), .vStr ("2020-01-01T00:00:00")]
  · exact h5 'f' [.vStr ("boom"), .vInt 7] (Or.inr (Or.inr rfl))
      ⟨.vStr ("boom"), by decide, by decide⟩
  · exact h7 .raise 'O' [.vInt 3, .vNone] (Or.inl rfl)

/-- C6 (corrected): the update-trigger and data-return modes do resolve
case-insensitively from strings (via `Enum[s.upper()]`) or pass through
already-typed values, and invalid values raise before the boundary call —
but the error is not as descriptive as claimed: it never names the set of
valid values, and for an invalid update mode it names the current
data-return mode instead of the offending value (the bug in the bare
`except` of lines 195-202).  Shown at `update_mode="bogus"`,
`data_return_mode="as_input"`: the raised message is exactly
`"DataReturnMode.AS_INPUT is not valid."` — it mentions neither the
offending string `"bogus"` nor any valid member such as `VALUE_CHANGED`. -/
theorem C6_counterexample :
    (AgGrid [] (.dict .nil) (.str ("bogus")) (.str ("as_input")) false true .coerce
      (.str ("light")) none = .error ("DataReturnMode.AS_INPUT is not valid.")) ∧
    mentions ("bogus").data ("DataReturnMode.AS_INPUT is not valid.").data = false ∧
    mentions ("VALUE_CHANGED").data ("DataReturnMode.AS_INPUT is not valid.").data = false ∧
    mentions ("streamlit").data ("DataReturnMode.AS_INPUT is not valid.").data = false :=
  ⟨by decide, by decide, by decide, by decide⟩

/-- C6 (amended): each mode resolves case-insensitively from a string, or
passes through an already-typed enum value; any other value raises
`ValueError` before the boundary call (the `AgGrid` result is that error for
*every* would-be boundary response).  The message says only
`"<value> is not valid."` — no valid set is listed — and for an invalid
update-trigger mode the interpolated value is the already-resolved
data-return mode, not the offending one. -/
theorem C6_mode_resolution_amended :
    (∀ m : DataReturnMode, validate_data_return_mode (.val m) = .ok m) ∧
    (∀ (m : GridUpdateMode) (d : DataReturnMode),
      validate_update_mode (.val m) d = .ok m) ∧
    (∀ (s : String) (m : DataReturnMode),
      DataReturnMode.ofName (upperString s) = some m →
      validate_data_return_mode (.str s) = .ok m) ∧
    (∀ s : String, DataReturnMode.ofName (upperString s) = none →
      validate_data_return_mode (.str s) = .error (s ++ (" is not valid."))) ∧
    (∀ (s : String) (m : GridUpdateMode) (d : DataReturnMode),
      GridUpdateMode.ofName (upperString s) = some m →
      validate_update_mode (.str s) d = .ok m) ∧
    (∀ (s : String) (d : DataReturnMode),
      GridUpdateMode.ofName (upperString s) = none →
      validate_update_mode (.str s) d = .error (d.pyStr ++ (" is not valid."))) ∧
    (∀ r : String,
      validate_data_return_mode (.other r) = .error (r ++ (" is not valid."))) ∧
    (∀ (r : String) (d : DataReturnMode),
      validate_update_mode (.other r) d = .error (d.pyStr ++ (" is not valid."))) ∧
    (∀ (df : DataFrame) (go : JsTree) (um : PyArg GridUpdateMode)
        (allow conv : Bool) (pol : ErrPolicy) (cv : Option Response) (s : String),
      DataReturnMode.ofName (upperString s) = none →
      AgGrid df go um (.str s) allow conv pol (.str ("light")) cv =
        .error (s ++ (" is not valid."))) ∧
    (∀ (df : DataFrame) (go : JsTree) (allow conv : Bool) (pol : ErrPolicy)
        (cv : Option Response) (s : String) (d : DataReturnMode),
      GridUpdateMode.ofName (upperString s) = none →
      AgGrid df go (.str s) (.val d) allow conv pol (.str ("light")) cv =
        .error (d.pyStr ++ (" is not valid."))) := by
  refine ⟨fun m => rfl, fun m d => rfl, ?_, ?_, ?_, ?_, fun r => rfl, fun r d => rfl,
    ?_, ?_⟩
  · intro s m h
    show (match DataReturnMode.ofName (upperString s) with
      | some m => Except.ok m
      | none => Except.error (s ++ (" is not valid."))) = Except.ok m
    rw [h]
  · intro s h
    show (match DataReturnMode.ofName (upperString s) with
      | some m => Except.ok m
      | none => Except.error (s ++ (" is not valid."))) =
      Except.error (s ++ (" is not valid."))
    rw [h]
  · intro s m d h
    show (match GridUpdateMode.ofName (upperString s) with
      | some m => Except.ok m
      | none => Except.error (d.pyStr ++ (" is not valid."))) = Except.ok m
    rw [h]
  · intro s d h
    show (match GridUpdateMode.ofName (upperString s) with
      | some m => Except.ok m
      | none => Except.error (d.pyStr ++ (" is not valid."))) =
      Except.error (d.pyStr ++ (" is not valid."))
    rw [h]
  · intro df go um allow conv pol cv s h
    have hd : validate_data_return_mode (.str s) = .error (s ++ (" is not valid.")) := by
      show (match DataReturnMode.ofName (upperString s) with
        | some m => Except.ok m
        | none => Except.error (s ++ (" is not valid."))) =
        Except.error (s ++ (" is not valid."))
      rw [h]
    unfold AgGrid
    rw [hd]
    rfl
  · intro df go allow conv pol cv s d h
    have hu : validate_update_mode (.str s) d = .error (d.pyStr ++ (" is not valid.")) := by
      show (match GridUpdateMode.ofName (upperString s) with
        | some m => Except.ok m
        | none => Except.error (d.pyStr ++ (" is not valid."))) =
        Except.error (d.pyStr ++ (" is not valid."))
      rw [h]
    show (validate_update_mode (.str s) d >>= fun _ =>
      AgGrid_process_response df conv pol cv) = Except.error (d.pyStr ++ (" is not valid."))
    rw [hu]
    rfl

/-- C6 witness: `"as_input"` resolves case-insensitively, an already-typed
mode passes through, and `update_mode="bogus"` raises before the boundary
call naming the data-return mode. -/
theorem C6_witness :
    (validate_data_return_mode (.str ("as_input")) = .ok .AS_INPUT) ∧
    (validate_update_mode (.str ("Value_Changed")) .AS_INPUT = .ok .VALUE_CHANGED) ∧
    (validate_update_mode (.val .MANUAL) .AS_INPUT = .ok .MANUAL) ∧
    (AgGrid [] (.dict .nil) (.str ("bogus")) (.val .AS_INPUT) false true .coerce
      (.str ("light")) none = .error ("DataReturnMode.AS_INPUT is not valid.")) := by
  obtain ⟨h1, h2, h3, h4, h5, h6, h7, h8, h9, h10⟩ := C6_mode_resolution_amended
  exact ⟨h3 _ _ (by decide), h5 _ _ _ (by decide), h2 _ _,
    h10 [] (.dict .nil) false true .coerce none "bogus" .AS_INPUT (by decide)⟩

/-- C7: a theme outside the closed six-element set (or a non-string theme)
raises a `ValueError` whose message starts with the offending value and
lists the available options, before the boundary call (the `AgGrid` result
is that error for every would-be boundary response); each of the six listed
themes passes validation. -/
theorem C7_theme_validation :
    (∀ t : String, t ∈ _available_themes → validate_theme (.str t) = .ok ()) ∧
    (∀ t : String, t ∉ _available_themes →
      validate_theme (.str t) = .error (t ++ themeErrSuffix)) ∧
    (∀ r : String, validate_theme (.nonstr r) = .error (r ++ themeErrSuffix)) ∧
    (∀ (df : DataFrame) (go : JsTree) (um : PyArg GridUpdateMode)
        (dm : PyArg DataReturnMode) (allow conv : Bool) (pol : ErrPolicy)
        (cv : Option Response) (t : String), t ∉ _available_themes →
      AgGrid df go um dm allow conv pol (.str t) cv = .error (t ++ themeErrSuffix)) := by
  refine ⟨?_, ?_, fun r => rfl, ?_⟩
  · intro t ht
    show (if t ∈ _available_themes then Except.ok ()
      else Except.error (t ++ themeErrSuffix)) = Except.ok ()
    rw [if_pos ht]
  · intro t ht
    show (if t ∈ _available_themes then Except.ok ()
      else Except.error (t ++ themeErrSuffix)) = Except.error (t ++ themeErrSuffix)
    rw [if_neg ht]
  · intro df go um dm allow conv pol cv t ht
    have hth : validate_theme (.str t) = .error (t ++ themeErrSuffix) := by
      show (if t ∈ _available_themes then Except.ok ()
        else Except.error (t ++ themeErrSuffix)) = Except.error (t ++ themeErrSuffix)
      rw [if_neg ht]
    unfold AgGrid
    rw [hth]
    rfl

/-- C7 witness: `"streamlit"` passes, `"neon"` raises before any boundary
call with the offending value and the option list in the message. -/
theorem C7_witness :
    (validate_theme (.str ("streamlit")) = .ok ()) ∧
    (validate_theme (.str ("neon")) = .error ("neon" ++ themeErrSuffix)) ∧
    (AgGrid [] (.dict .nil) (.str ("value_changed")) (.str ("as_input")) false true
      .coerce (.str ("neon")) none = .error ("neon" ++ themeErrSuffix)) := by
  obtain ⟨h1, h2, h3, h4⟩ := C7_theme_validation
  exact ⟨h1 _ (by decide), h2 _ (by decide),
    h4 [] (.dict .nil) (.str ("value_changed")) (.str ("as_input")) false true
      .coerce none "neon" (by decide)⟩

/-- C8 (corrected): the classifier does not map every column into the
six-tag set.  A plain boolean column classifies to numpy kind `'b'`, which
is outside the six retyping groups `{i,u,f} ∪ {O,S,U} ∪ {M} ∪ {m}` — it does
not degrade to object/text. -/
theorem C8_counterexample :
    frame_dtypes [⟨"flag", Dtype.bool_, [.vBool true]⟩] = [("flag", 'b')] ∧
    ('b' ∉ (['i', 'u', 'f', 'O', 'S', 'U', 'M', 'm'] : List Char)) :=
  ⟨rfl, by decide⟩

/-- C8 (amended): the per-column tag map is the columns' declared dtype kind
characters — computed from the declared types alone, before and independent
of any cell-value transformation; the classification is total (one tag per
column, never failing); every produced tag is the dtype's `kind` character,
drawn from the kind alphabet `{i,u,f,O,S,U,M,m,b,c}` — but boolean and
complex columns yield `'b'`/`'c'`, outside the six retyping groups, rather
than degrading to object/text. -/
theorem C8_classifier_amended :
    (∀ df : DataFrame, frame_dtypes df = df.map (fun c => (c.name, c.dtype.kind))) ∧
    (∀ (df : DataFrame) (f : Value → Value),
      frame_dtypes (df.map (fun c => ⟨c.name, c.dtype, c.cells.map f⟩)) =
        frame_dtypes df) ∧
    (∀ df : DataFrame, (frame_dtypes df).length = df.length) ∧
    (∀ (df : DataFrame) (p : String × Char), p ∈ frame_dtypes df →
      p.2 ∈ (['i', 'u', 'f', 'O', 'S', 'U', 'M', 'm', 'b', 'c'] : List Char)) := by
  refine ⟨fun df => rfl, ?_, ?_, ?_⟩
  · intro df f
    unfold frame_dtypes
    rw [List.map_map]
    rfl
  · intro df
    unfold frame_dtypes
    rw [List.length_map]
  · intro df p hp
    unfold frame_dtypes at hp
    rcases List.mem_map.1 hp with ⟨c, _, rfl⟩
    show c.dtype.kind ∈ _
    generalize c.dtype = d
    cases d <;> decide

/-- C8 witness: the amended classifier facts at a concrete two-column frame
(and its encoded image). -/
theorem C8_witness :
    (("a", 'i') : String × Char).2 ∈
      (['i', 'u', 'f', 'O', 'S', 'U', 'M', 'm', 'b', 'c'] : List Char) :=
  C8_classifier_amended.2.2.2 [⟨"a", Dtype.int64, [.vInt 1]⟩] ("a", 'i') (by decide)

/-- C9 (corrected): the render call is *not* mutation-free on its inputs.
`walk_gridOptions` (line 176) discards its return value, so its update is an
in-place mutation of the caller's `gridOptions`: when `allow_unsafe_jscode`
is set and the mapping holds a `JsCode` marker, the marker has been replaced
by its raw code text after the call. -/
theorem C9_counterexample :
    AgGrid_gridOptions_after
        (.dict (.cons ("onCellClicked") (.jsCode ("alertOne")) .nil)) true =
      .dict (.cons ("onCellClicked") (.leaf ("alertOne")) .nil) ∧
    JsTree.dict (.cons ("onCellClicked") (.jsCode ("alertOne")) .nil) ≠
      .dict (.cons ("onCellClicked") (.leaf ("alertOne")) .nil) :=
  ⟨rfl, by decide⟩

/-- C9 (amended): apart from the boundary call the render call is pure data
transformation, except that when `allow_unsafe_jscode` is set, `JsCode`
markers inside the caller's `gridOptions` are unwrapped in place for
transmission.  With the flag unset, or when the mapping contains no `JsCode`
marker, the caller's `gridOptions` is unchanged after the call. -/
theorem C9_gridOptions_purity_amended :
    (∀ go : JsTree, AgGrid_gridOptions_after go false = go) ∧
    (∀ go : JsTree, noJsCode go = true → AgGrid_gridOptions_after go true = go) := by
  refine ⟨fun go => rfl, fun go h => ?_⟩
  show walk_gridOptions unwrap_jscode go = go
  exact walk_unwrap_id_tree go h

/-- C9 witness: a marker-free gridOptions mapping is unchanged even with the
unsafe flag set. -/
theorem C9_witness :
    AgGrid_gridOptions_after
        (.dict (.cons ("rowSelection") (.leaf ("single")) .nil)) true =
      .dict (.cons ("rowSelection") (.leaf ("single")) .nil) :=
  C9_gridOptions_purity_amended.2 _ (by decide)

/-- C10: whenever the frame rebuilt from the response's `rowData` is empty,
the decoder skips all retyping — the result is that empty frame and the
response's selection, for every `convertTypes` flag and error policy. -/
theorem C10_empty_skips_retyping (df : DataFrame) (convert : Bool)
    (policy : ErrPolicy) (cv : Response)
    (h : (fromRecords cv.rowData).isEmpty = true) :
    AgGrid_process_response df convert policy (some cv) =
      .ok ⟨fromRecords cv.rowData, cv.selectedRows⟩ := by
  show (if ¬ (fromRecords cv.rowData).isEmpty ∧ convert then
      (convertTypesFrame policy cv.originalDtypes (fromRecords cv.rowData)).map
        (fun f => (⟨f, cv.selectedRows⟩ : GridReturn))
    else .ok ⟨fromRecords cv.rowData, cv.selectedRows⟩) = _
  rw [if_neg (fun hcond => hcond.1 h)]

/-- C10 witness: an empty `rowData` list yields the empty frame untouched,
with `convertTypes` on and policy `raise`. -/
theorem C10_witness :
    AgGrid_process_response [⟨"a", Dtype.int64, [.vInt 1]⟩] true .raise
        (some ⟨[], [("a", 'i')], []⟩) = .ok ⟨[], []⟩ :=
  C10_empty_skips_retyping [⟨"a", Dtype.int64, [.vInt 1]⟩] true .raise
    ⟨[], [("a", 'i')], []⟩ (by decide)

end StAggrid
